import Mathlib

/-!
# Verification of `localstack/services/s3/utils.py`

Shallow embedding of the S3 request-validation utilities: checksum
verification, bucket-name and virtual-host classification (the two regexes
are transcribed into an explicit regex AST evaluated by a fuelled
backtracking matcher), canonical-id validation, and KMS key-id resolution
(with the describe-key collaborator passed in explicitly and the issued
calls returned as a trace).

Bytes are `Nat` (values 0..255), Python `dict`s are association lists,
Python exceptions are `Except` error values.
-/

/-! ## Python string helpers (ASCII semantics) -/

/-- Python `str.upper()` restricted to ASCII, which is all the callers use. -/
def py_upper (s : String) : String := String.mk (s.data.map Char.toUpper)

/-- Python `str.lower()` restricted to ASCII. -/
def py_lower (s : String) : String := String.mk (s.data.map Char.toLower)

/-- Python `str.strip()` with no argument: drop leading/trailing whitespace. -/
def pyStrip (cs : List Char) : List Char :=
  ((cs.dropWhile Char.isWhitespace).reverse.dropWhile Char.isWhitespace).reverse

/-- Python `dict.get(key)`: first binding wins, `None` when absent. -/
def dictGet (d : List (String × String)) (key : String) : Option String :=
  (d.find? (fun kv => kv.1 == key)).map (fun kv => kv.2)

/-- Python `dict.get(key, default)`. -/
def dictGetD (d : List (String × String)) (key : String) (dflt : String) : String :=
  (dictGet d key).getD dflt

/-! ## Error values

`ServiceException` subclasses carry a code, a sender-fault flag, an HTTP
status code and a message. -/

structure ServiceExceptionVal where
  code : String
  sender_fault : Bool
  status_code : Nat
  message : String
deriving DecidableEq

/-- The `InvalidRequest` exception class of `utils.py`:
`code = "InvalidRequest"`, `sender_fault = False`, `status_code = 400`. -/
def InvalidRequest (message : String) : ServiceExceptionVal :=
  { code := "InvalidRequest", sender_fault := false, status_code := 400,
    message := message }

/-! ## Base64 and checksums

`checksum_crc32`, `checksum_crc32c`, `hash_sha1` and `hash_sha256` come from
`localstack.utils.strings`, which is outside the sources at hand; they are
modelled from the spec below. -/

/-- Standard base64 alphabet. -/
def base64_chars : List Char :=
  "ABCDEFGHIJKLMNOPQRSTUVWXYZabcdefghijklmnopqrstuvwxyz0123456789+/".data

def b64idx (n : Nat) : Char := base64_chars.getD n 'A'

/-- Standard base64 encoding of a byte list, with `=` padding. -/
def base64_encode : List Nat → List Char
  | [] => []
  | [b1] => [b64idx (b1 / 4), b64idx (b1 % 4 * 16), '=', '=']
  | [b1, b2] => [b64idx (b1 / 4), b64idx (b1 % 4 * 16 + b2 / 16), b64idx (b2 % 16 * 4), '=']
  | b1 :: b2 :: b3 :: rest =>
    b64idx (b1 / 4) :: b64idx (b1 % 4 * 16 + b2 / 16) ::
      b64idx (b2 % 16 * 4 + b3 / 64) :: b64idx (b3 % 64) :: base64_encode rest

def b64 (bytes : List Nat) : String := String.mk (base64_encode bytes)

/-- One CRC bit step: shift right, conditionally XOR the (reflected) polynomial. -/
def crc_bit (poly c : Nat) : Nat := if c % 2 = 1 then (c / 2) ^^^ poly else c / 2

def iterateN (f : Nat → Nat) : Nat → Nat → Nat
  | 0, x => x
  | n + 1, x => iterateN f n (f x)

/-- Table-free reflected CRC over bytes: init `0xFFFFFFFF`, final complement. -/
def crc_reflected (poly : Nat) (data : List Nat) : Nat :=
  (data.foldl (fun crc b => iterateN (crc_bit poly) 8 (crc ^^^ b % 256)) 4294967295) ^^^ 4294967295

/-- Big-endian bytes of a 32-bit value. -/
def to_be_bytes_4 (n : Nat) : List Nat :=
  [n / 16777216 % 256, n / 65536 % 256, n / 256 % 256, n % 256]

/-- Big-endian bytes of a 64-bit value. -/
def to_be_bytes_8 (n : Nat) : List Nat :=
  [n / 72057594037927936 % 256, n / 281474976710656 % 256, n / 1099511627776 % 256,
   n / 4294967296 % 256, n / 16777216 % 256, n / 65536 % 256, n / 256 % 256, n % 256]

/-- Modelled from the spec: `checksum_crc32` of `localstack.utils.strings` is
not among the sources; per the spec it is the 32-bit CRC32 cyclic-redundancy
checksum (reflected polynomial `0xEDB88320`), base64-encoded. -/
def checksum_crc32 (data : List Nat) : String :=
  b64 (to_be_bytes_4 (crc_reflected 3988292384 data))

/-- Modelled from the spec: `checksum_crc32c` of `localstack.utils.strings` is
not among the sources; per the spec it is the 32-bit CRC32C checksum (the
Castagnoli polynomial, reflected `0x82F63B78`), base64-encoded. -/
def checksum_crc32c (data : List Nat) : String :=
  b64 (to_be_bytes_4 (crc_reflected 2197175160 data))

/-! ### SHA-1 and SHA-256 (32-bit words as `Nat` with explicit mod `2^32`) -/

def w32 (n : Nat) : Nat := n % 4294967296

def rotl32 (n x : Nat) : Nat := w32 (x * 2 ^ n + x / 2 ^ (32 - n))

def rotr32 (n x : Nat) : Nat := x / 2 ^ n + x % 2 ^ n * 2 ^ (32 - n)

def not32 (x : Nat) : Nat := 4294967295 - x

/-- SHA padding: `0x80`, zero bytes until the length is 56 mod 64, then the
64-bit big-endian bit length. The zero count is `(55 - len) mod 64` computed
as `(119 - len % 64) % 64` so that `Nat` subtraction never truncates. -/
def sha_pad (msg : List Nat) : List Nat :=
  msg ++ 128 :: List.replicate ((119 - msg.length % 64) % 64) 0
      ++ to_be_bytes_8 (msg.length * 8)

/-- Split a list into chunks of `size` (fuelled, structurally recursive). -/
def chunksAux (size : Nat) : Nat → List Nat → List (List Nat)
  | _, [] => []
  | 0, l => [l.take size]
  | fuel + 1, l => l.take size :: chunksAux size fuel (l.drop size)

def chunks (size : Nat) (l : List Nat) : List (List Nat) := chunksAux size l.length l

/-- Big-endian 32-bit words from a byte list. -/
def words16 : List Nat → List Nat
  | a :: b :: c :: d :: rest => (a * 16777216 + b * 65536 + c * 256 + d) :: words16 rest
  | _ => []

/-- The 64 SHA-256 round constants (fractional parts of cube roots of the
first 64 primes), in decimal. -/
def sha256_k : List Nat :=
  [1116352408, 1899447441, 3049323471, 3921009573, 961987163, 1508970993,
   2453635748, 2870763221, 3624381080, 310598401, 607225278, 1426881987,
   1925078388, 2162078206, 2614888103, 3248222580, 3835390401, 4022224774,
   264347078, 604807628, 770255983, 1249150122, 1555081692, 1996064986,
   2554220882, 2821834349, 2952996808, 3210313671, 3336571891, 3584528711,
   113926993, 338241895, 666307205, 773529912, 1294757372, 1396182291,
   1695183700, 1986661051, 2177026350, 2456956037, 2730485921, 2820302411,
   3259730800, 3345764771, 3516065817, 3600352804, 4094571909, 275423344,
   430227734, 506948616, 659060556, 883997877, 958139571, 1322822218,
   1537002063, 1747873779, 1955562222, 2024104815, 2227730452, 2361852424,
   2428436474, 2756734187, 3204031479, 3329325298]

def ssig0 (x : Nat) : Nat := rotr32 7 x ^^^ (rotr32 18 x ^^^ x / 8)

def ssig1 (x : Nat) : Nat := rotr32 17 x ^^^ (rotr32 19 x ^^^ x / 1024)

/-- Extend a 16-word SHA-256 schedule by `t` further words. -/
def sha256_sched (w : List Nat) : Nat → List Nat
  | 0 => w
  | t + 1 =>
    let w2 := sha256_sched w t
    let n := w2.length
    w2 ++ [w32 (ssig1 (w2.getD (n - 2) 0) + w2.getD (n - 7) 0
        + ssig0 (w2.getD (n - 15) 0) + w2.getD (n - 16) 0)]

def sha256_round (st : List Nat) (kw : Nat × Nat) : List Nat :=
  match st with
  | [a, b, c, d, e, f, g, h] =>
    let s1 := rotr32 6 e ^^^ (rotr32 11 e ^^^ rotr32 25 e)
    let ch := (e &&& f) ^^^ (not32 e &&& g)
    let t1 := w32 (h + s1 + ch + kw.1 + kw.2)
    let s0 := rotr32 2 a ^^^ (rotr32 13 a ^^^ rotr32 22 a)
    let mj := (a &&& b) ^^^ ((a &&& c) ^^^ (b &&& c))
    let t2 := w32 (s0 + mj)
    [w32 (t1 + t2), a, b, c, w32 (d + t1), e, f, g]
  | other => other

def sha256_compress (h : List Nat) (block : List Nat) : List Nat :=
  let w := sha256_sched (words16 block) 48
  let fin := (sha256_k.zip w).foldl sha256_round h
  (h.zip fin).map (fun p => w32 (p.1 + p.2))

def sha256_init : List Nat :=
  [1779033703, 3144134277, 1013904242, 2773480762, 1359893119, 2600822924, 528734635, 1541459225]

def listJoin (ls : List (List Nat)) : List Nat := ls.foldr List.append []

/-- Modelled from the spec: `hash_sha256` of `localstack.utils.strings` is not
among the sources; per the spec it is the SHA-256 cryptographic hash of the
payload, base64-encoded. -/
def hash_sha256 (data : List Nat) : String :=
  b64 (listJoin (((chunks 64 (sha_pad data)).foldl sha256_compress sha256_init).map to_be_bytes_4))

/-- Extend a 16-word SHA-1 schedule by `t` further words. -/
def sha1_sched (w : List Nat) : Nat → List Nat
  | 0 => w
  | t + 1 =>
    let w2 := sha1_sched w t
    let n := w2.length
    w2 ++ [rotl32 1 (w2.getD (n - 3) 0 ^^^ (w2.getD (n - 8) 0
        ^^^ (w2.getD (n - 14) 0 ^^^ w2.getD (n - 16) 0)))]

def sha1_round (st : List Nat) (iw : Nat × Nat) : List Nat :=
  match st with
  | [a, b, c, d, e] =>
    let i := iw.1
    let f :=
      if i < 20 then (b &&& c) ^^^ (not32 b &&& d)
      else if i < 40 then b ^^^ (c ^^^ d)
      else if i < 60 then (b &&& c) ^^^ ((b &&& d) ^^^ (c &&& d))
      else b ^^^ (c ^^^ d)
    let k :=
      if i < 20 then 1518500249
      else if i < 40 then 1859775393
      else if i < 60 then 2400959708
      else 3395469782
    [w32 (rotl32 5 a + f + e + k + iw.2), a, rotl32 30 b, c, d]
  | other => other

def sha1_compress (h : List Nat) (block : List Nat) : List Nat :=
  let w := sha1_sched (words16 block) 64
  let fin := ((List.range 80).zip w).foldl sha1_round h
  (h.zip fin).map (fun p => w32 (p.1 + p.2))

def sha1_init : List Nat := [1732584193, 4023233417, 2562383102, 271733878, 3285377520]

/-- Modelled from the spec: `hash_sha1` of `localstack.utils.strings` is not
among the sources; per the spec it is the SHA-1 cryptographic hash of the
payload, base64-encoded. -/
def hash_sha1 (data : List Nat) : String :=
  b64 (listJoin (((chunks 64 (sha_pad data)).foldl sha1_compress sha1_init).map to_be_bytes_4))

/-! ## Checksum verification (`get_object_checksum_for_algorithm`, `verify_checksum`) -/

/-- `get_object_checksum_for_algorithm`: dispatch on the algorithm name
(the four `ChecksumAlgorithm` enum values are the strings `"CRC32"`,
`"CRC32C"`, `"SHA1"`, `"SHA256"`); any other value raises `InvalidRequest`. -/
def get_object_checksum_for_algorithm (checksum_algorithm : String) (data : List Nat) :
    Except ServiceExceptionVal String :=
  if checksum_algorithm = "CRC32" then Except.ok (checksum_crc32 data)
  else if checksum_algorithm = "CRC32C" then Except.ok (checksum_crc32c data)
  else if checksum_algorithm = "SHA1" then Except.ok (hash_sha1 data)
  else if checksum_algorithm = "SHA256" then Except.ok (hash_sha256 data)
  else Except.error
    (InvalidRequest "The value specified in the x-amz-trailer header is not supported")

/-- `verify_checksum`: look up `request["Checksum" + algorithm.upper()]`
(`None` when absent), compute the digest, and raise `InvalidRequest` when the
two differ (in Python, a string never equals `None`). -/
def verify_checksum (checksum_algorithm : String) (data : List Nat)
    (request : List (String × String)) : Except ServiceExceptionVal Unit :=
  let key := "Checksum" ++ py_upper checksum_algorithm
  let checksum := dictGet request key
  match get_object_checksum_for_algorithm checksum_algorithm data with
  | Except.error e => Except.error e
  | Except.ok calculated =>
    if some calculated ≠ checksum then
      Except.error (InvalidRequest
        ("Value for x-amz-checksum-" ++ py_lower checksum_algorithm ++ " header is invalid."))
    else Except.ok ()

/-- The spec side of claim C2: "the algorithm's digest of the payload" for the
four supported algorithms, `none` for unsupported selectors. Stated from the
spec's words, to compare with `verify_checksum`'s behaviour. -/
def spec_digest (algorithm : String) (data : List Nat) : Option String :=
  if algorithm = "CRC32" then some (checksum_crc32 data)
  else if algorithm = "CRC32C" then some (checksum_crc32c data)
  else if algorithm = "SHA1" then some (hash_sha1 data)
  else if algorithm = "SHA256" then some (hash_sha256 data)
  else none

/-! ## Canonical-id validation (`is_valid_canonical_id`) -/

/-- Value of a hex digit, `none` otherwise. -/
def hex_val (c : Char) : Option Nat :=
  if '0' ≤ c ∧ c ≤ '9' then some (c.toNat - 48)
  else if 'a' ≤ c ∧ c ≤ 'f' then some (c.toNat - 87)
  else if 'A' ≤ c ∧ c ≤ 'F' then some (c.toNat - 70)
  else none

/-- Hex digits with single underscores allowed between digits (CPython rule). -/
def parse_hex_digits_aux : List Char → Nat → Option Nat
  | [], acc => some acc
  | '_' :: c :: rest, acc =>
    match hex_val c with
    | some v => parse_hex_digits_aux rest (acc * 16 + v)
    | none => none
  | c :: rest, acc =>
    match hex_val c with
    | some v => parse_hex_digits_aux rest (acc * 16 + v)
    | none => none

def parse_hex_digits : List Char → Option Nat
  | [] => none
  | c :: rest =>
    match hex_val c with
    | some v => parse_hex_digits_aux rest v
    | none => none

/-- Hex digits with an optional `0x`/`0X` radix marker. -/
def parse_hex_body (cs : List Char) : Option Nat :=
  match cs with
  | '0' :: c :: rest =>
    if c == 'x' || c == 'X' then
      match rest with
      | '_' :: rest2 => parse_hex_digits rest2
      | _ => parse_hex_digits rest
    else parse_hex_digits ('0' :: c :: rest)
  | _ => parse_hex_digits cs

/-- Python `int(s, 16)`: strip whitespace, optional sign, optional `0x`
marker, hex digits; `none` models `ValueError`. -/
def int16? (s : String) : Option Int :=
  match pyStrip s.data with
  | '+' :: rest => (parse_hex_body rest).map (fun n => (n : Int))
  | '-' :: rest => (parse_hex_body rest).map (fun n => -(n : Int))
  | cs => (parse_hex_body cs).map (fun n => (n : Int))

/-- A Python value that is either an `int` or a `bool` — the possible results
of `is_valid_canonical_id`, whose `and` expression returns the left `int`
operand itself when that operand is falsy (zero). -/
inductive PyRet where
  | int (n : Int)
  | bool (b : Bool)
deriving DecidableEq

/-- `is_valid_canonical_id`: `int(canonical_id, 16) and len(canonical_id) == 64`,
returning `False` on `ValueError`. When the parsed integer is `0` the Python
`and` short-circuits and the function returns the int `0`, not a bool. -/
def is_valid_canonical_id (canonical_id : String) : PyRet :=
  match int16? canonical_id with
  | none => PyRet.bool false
  | some n => if n = 0 then PyRet.int 0 else PyRet.bool (canonical_id.length == 64)

/-! ## KMS key validation (`validate_kms_key_id`) -/

/-- The fields of a parsed ARN. -/
structure ParsedArn where
  partition : String
  service : String
  region : String
  account : String
  resource : String
deriving DecidableEq

/-- Split a character list on a separator character. -/
def splitOnChar (sep : Char) : List Char → List (List Char)
  | [] => [[]]
  | c :: rest =>
    match splitOnChar sep rest with
    | [] => if c = sep then [[], []] else [[c]]
    | g :: gs => if c = sep then [] :: g :: gs else (c :: g) :: gs

def joinColon : List String → String
  | [] => ""
  | [x] => x
  | x :: xs => x ++ ":" ++ joinColon xs

/-- Modelled from the spec: `parse_arn` of `localstack.utils.aws.arns` is not
among the sources; per the spec it attempts to parse the reference as an ARN
(`arn:partition:service:region:account:resource`, colons allowed inside the
resource part) and fails — `none`, standing for `InvalidArnException` — when
the reference is a bare key id rather than an ARN. -/
def parse_arn (s : String) : Option ParsedArn :=
  match (splitOnChar ':' s.data).map String.mk with
  | arnLit :: partition :: service :: region :: account :: resource :: rest =>
    if arnLit = "arn" then
      some ⟨partition, service, region, account, joinColon (resource :: rest)⟩
    else none
  | _ => none

/-- Modelled from the spec: `kms_key_arn` of `localstack.utils.aws.arns` is
not among the sources; per the spec it synthesizes the canonical KMS key ARN
scoped to the given account id and region. -/
def kms_key_arn (key_id : String) (account_id : String) (region_name : String) : String :=
  "arn:aws:kms:" ++ region_name ++ ":" ++ account_id ++ ":key/" ++ key_id

/-- The two fields of moto's `FakeBucket` that `validate_kms_key_id` reads. -/
structure FakeBucket where
  region_name : String
  account_id : String

/-- A botocore `ClientError`, reduced to the fields the code reads:
`e.response["Error"]["Code"]` and `e.response["Error"]["Message"]`. -/
structure ClientError where
  code : String
  message : String
deriving DecidableEq

/-- An error escaping `validate_kms_key_id`: either a `CommonServiceException`
it raised itself, or a collaborator `ClientError` re-raised unchanged. -/
inductive KmsError where
  | common (code : String) (message : String)
  | client (e : ClientError)
deriving DecidableEq

/-- The trailing `describe_key` call of `validate_kms_key_id`: a `ClientError`
with code `NotFoundException` is remapped to `KMS.NotFoundException` keeping
the collaborator's message; any other `ClientError` is re-raised unchanged.
The second component records the `KeyId` of each issued describe-key call. -/
def kms_describe_step (describe_key : String → Except ClientError Unit) (key_arn : String) :
    Except KmsError Unit × List String :=
  match describe_key key_arn with
  | Except.ok _ => (Except.ok (), [key_arn])
  | Except.error e =>
    if e.code = "NotFoundException" then
      (Except.error (KmsError.common "KMS.NotFoundException" e.message), [key_arn])
    else
      (Except.error (KmsError.client e), [key_arn])

/-- `validate_kms_key_id`, with the KMS collaborator passed in explicitly.
If the reference parses as an ARN whose region differs from the bucket's,
raise `KMS.NotFoundException` without any describe-key call; if it does not
parse, rebuild the ARN from the bucket's account and region; then issue the
describe-key call. -/
def validate_kms_key_id (describe_key : String → Except ClientError Unit)
    (kms_key : String) (bucket : FakeBucket) : Except KmsError Unit × List String :=
  match parse_arn kms_key with
  | some parsed =>
    if parsed.region ≠ bucket.region_name then
      (Except.error (KmsError.common "KMS.NotFoundException" ("Invalid arn " ++ parsed.region)), [])
    else
      kms_describe_step describe_key kms_key
  | none =>
    kms_describe_step describe_key (kms_key_arn kms_key bucket.account_id bucket.region_name)

/-- The `KeyId` that `validate_kms_key_id` passes to describe-key, when it
reaches that call (`none` on the cross-region short-circuit). -/
def describe_target (kms_key : String) (bucket : FakeBucket) : Option String :=
  match parse_arn kms_key with
  | some parsed =>
    if parsed.region ≠ bucket.region_name then none else some kms_key
  | none => some (kms_key_arn kms_key bucket.account_id bucket.region_name)

/-! ## A small backtracking regex engine

Python's `re.match` semantics for the fragment the two patterns of `utils.py`
use: character classes, concatenation, greedy alternation / option / star,
positive and negative lookahead, capture groups, and the `$` anchor — which
in Python (without `MULTILINE`) matches at the end of the subject or just
before a newline that is the subject's last character. The matcher is
continuation-passing; `star` iterations must consume input and spend fuel, so
everything is structurally recursive and the kernel can evaluate it. -/

/-- Regex abstract syntax. -/
inductive RE where
  | eps
  | eos
  | cls (p : Char → Bool)
  | seq (a b : RE)
  | alt (a b : RE)
  | star (a : RE)
  | pla (a : RE)
  | nla (a : RE)
  | group (n : Nat) (a : RE)

/-- Captured groups: Python group number paired with the captured text. -/
abbrev Caps := List (Nat × String)

/-- One layer of matching; `deeper` is invoked for the next `star` iteration
(it will be the matcher at one less fuel). Alternation and star are greedy,
matching Python's leftmost-longest-first backtracking order. -/
def reStep (deeper : RE → List Char → Caps → (List Char → Caps → Option Caps) → Option Caps) :
    RE → List Char → Caps → (List Char → Caps → Option Caps) → Option Caps
  | RE.eps, s, caps, k => k s caps
  | RE.eos, s, caps, k => if s.isEmpty || s == ['\n'] then k s caps else none
  | RE.cls p, s, caps, k =>
    match s with
    | [] => none
    | c :: rest => if p c then k rest caps else none
  | RE.seq a b, s, caps, k =>
    reStep deeper a s caps (fun s2 caps2 => reStep deeper b s2 caps2 k)
  | RE.alt a b, s, caps, k =>
    match reStep deeper a s caps k with
    | some out => some out
    | none => reStep deeper b s caps k
  | RE.star a, s, caps, k =>
    match reStep deeper a s caps (fun s2 caps2 =>
        if s2.length < s.length then deeper (RE.star a) s2 caps2 k else none) with
    | some out => some out
    | none => k s caps
  | RE.pla a, s, caps, k =>
    match reStep deeper a s caps (fun _ _ => some []) with
    | some _ => k s caps
    | none => none
  | RE.nla a, s, caps, k =>
    match reStep deeper a s caps (fun _ _ => some []) with
    | some _ => none
    | none => k s caps
  | RE.group n a, s, caps, k =>
    reStep deeper a s caps (fun s2 caps2 =>
      k s2 ((n, String.mk (List.take (s.length - s2.length) s)) :: caps2))

/-- The fuelled matcher: fuel bounds the number of star iterations along any
path; every iteration consumes at least one character, so fuel
`length + 1` is never exhausted. -/
def reMF : Nat → RE → List Char → Caps → (List Char → Caps → Option Caps) → Option Caps
  | 0 => reStep (fun _ _ _ _ => none)
  | fuel + 1 => reStep (reMF fuel)

/-- `re.match(r, s)` for an AST ending in `RE.eos`: an anchored match from the
start of `s`, returning the captures of the successful alternative. -/
def reFullMatch (r : RE) (s : String) : Option Caps :=
  reMF (s.length + 1) r s.data [] (fun _ caps => some caps)

/-! ### Combinators mirroring the regex syntax -/

def reChar (c : Char) : RE := RE.cls (fun x => x == c)

/-- The regex `.`: any character but a newline. -/
def reDot : RE := RE.cls (fun c => !(c == '\n'))

def reDigit : RE := RE.cls Char.isDigit

def reLower : RE := RE.cls Char.isLower

def rePlus (r : RE) : RE := RE.seq r (RE.star r)

def reOpt (r : RE) : RE := RE.alt r RE.eps

def reStr (s : String) : RE := s.data.foldr (fun c acc => RE.seq (reChar c) acc) RE.eps

/-- At most `n` repetitions, greedy (more first). -/
def reRepLe : Nat → RE → RE
  | 0, _ => RE.eps
  | n + 1, r => RE.alt (RE.seq r (reRepLe n r)) RE.eps

def reSeqs (l : List RE) : RE := l.foldr RE.seq RE.eps

/-! ## `BUCKET_NAME_REGEX` and `is_bucket_name_valid` -/

/-- The lookahead body of the first line of `BUCKET_NAME_REGEX`: any 3 to 63
non-newline characters up to the `$` anchor (the repetition written as three
mandatory characters plus at most 60 more); `$` also matches just before a
trailing newline, so subjects of length 64 ending in a newline match too. -/
def reLenCheck : RE :=
  RE.seq reDot (RE.seq reDot (RE.seq reDot (RE.seq (reRepLe 60 reDot) RE.eos)))

/-- The negative-lookahead body of `BUCKET_NAME_REGEX`: one or more
digit-groups each followed by a dot, then a final digit-group — the
dotted all-numeric IPv4-like shape. -/
def reIpShape : RE :=
  RE.seq (rePlus (RE.seq (rePlus reDigit) (reChar '.'))) (RE.seq (rePlus reDigit) RE.eos)

/-- A bucket label: a single `[a-z0-9]`, or `[a-z0-9][a-z0-9-]*[a-z0-9]`. -/
def reBucketLabel : RE :=
  RE.alt (RE.cls (fun c => c.isLower || c.isDigit))
    (RE.seq (RE.cls (fun c => c.isLower || c.isDigit))
      (RE.seq (RE.star (RE.cls (fun c => c.isLower || c.isDigit || c == '-')))
        (RE.cls (fun c => c.isLower || c.isDigit))))

/-- The main body of `BUCKET_NAME_REGEX`: dot-separated labels. -/
def reBucketBody : RE :=
  RE.seq (RE.star (RE.seq reBucketLabel (reChar '.'))) (RE.seq reBucketLabel RE.eos)

/-- `BUCKET_NAME_REGEX`: the length lookahead, the IPv4-shape negative
lookahead, then the label grammar. Capture groups are not numbered here:
`is_bucket_name_valid` only tests whether a match exists. -/
def BUCKET_NAME_REGEX : RE :=
  RE.seq (RE.pla reLenCheck) (RE.seq (RE.nla reIpShape) reBucketBody)

/-- `is_bucket_name_valid`: `True if re.match(BUCKET_NAME_REGEX, name) else False`. -/
def is_bucket_name_valid (bucket_name : String) : Bool :=
  (reFullMatch BUCKET_NAME_REGEX bucket_name).isSome

/-! ## `S3_VIRTUAL_HOSTNAME_REGEX` and
`forwarded_from_virtual_host_addressed_request`

Group numbers follow Python's numbering of the composed pattern; group 3 is
the bucket label. -/

/-- `REGION_REGEX`: two lowercase letters, a dash, lowercase letters, a dash,
digits. -/
def REGION_REGEX : RE :=
  reSeqs [reLower, reLower, reChar '-', rePlus reLower, reChar '-', rePlus reDigit]

/-- `PORT_REGEX`: an optional colon followed by up to six digits (group 18). -/
def PORT_REGEX : RE := reOpt (RE.group 18 (RE.seq (reChar ':') (reRepLe 6 reDigit)))

/-- First alternative of the host suffix: an `s3`/`s3-website`, optionally
region-qualified, `localhost` endpoint, optionally under
`.localstack.cloud`. -/
def reVhostLocalhost : RE :=
  RE.group 5 (reSeqs
    [RE.group 6 (reSeqs
      [reStr "s3", reOpt (RE.group 7 (reStr "-website")), reChar '.',
       reOpt (RE.group 8 (RE.seq REGION_REGEX (reChar '.')))]),
     reStr "localhost",
     reOpt (RE.group 9 (reStr ".localstack.cloud"))])

/-- Second alternative: the bare `localhost.localstack.cloud` endpoint. -/
def reVhostLocalstackCloud : RE := RE.group 10 (reStr "localhost.localstack.cloud")

/-- Third alternative: the `amazonaws.com` endpoints (`s3`, `s3-website`,
`s3-external-1`, optional `dualstack`, optional region, optional `.cn` whose
dot is the unescaped any-character dot of the source pattern). -/
def reVhostAmazonaws : RE :=
  RE.group 11 (reSeqs
    [reStr "s3",
     reOpt (RE.group 12 (RE.alt (RE.group 13 (reStr "-website"))
       (RE.group 14 (reStr "-external-1")))),
     RE.cls (fun c => c == '.' || c == '-'),
     reOpt (RE.group 15 (reStr "dualstack.")),
     reOpt (RE.group 16 (RE.seq REGION_REGEX (reChar '.'))),
     reStr "amazonaws.com",
     reOpt (RE.group 17 (RE.seq reDot (reStr "cn")))])

/-- `S3_VIRTUAL_HOSTNAME_REGEX`: optional scheme (groups 1-2), the bucket
label — anything without dots or slashes, not starting with the literal
`s3.` (group 3) — a dot, one of the three host-suffix alternatives
(group 4), an optional port and an optional slash-separated path. -/
def S3_VIRTUAL_HOSTNAME_REGEX : RE :=
  reSeqs
    [reOpt (RE.group 1 (reSeqs [reStr "http", reOpt (RE.group 2 (reChar 's')), reStr "://"])),
     RE.group 3 (RE.seq (RE.nla (reStr "s3."))
       (rePlus (RE.cls (fun c => !(c == '.') && !(c == '/'))))),
     reChar '.',
     RE.group 4 (RE.alt reVhostLocalhost (RE.alt reVhostLocalstackCloud reVhostAmazonaws)),
     PORT_REGEX,
     RE.star (RE.group 19 (RE.seq (reChar '/')
       (RE.star (RE.cls (fun c =>
         c.isAlpha || c.isDigit || c == '_' || c == '-' || c == '.' || c == ' '))))),
     RE.eos]

def S3_VIRTUAL_HOST_FORWARDED_HEADER : String := "x-s3-vhost-forwarded-for"

/-- `forwarded_from_virtual_host_addressed_request`: match the forwarded-host
header (default `""`) against `S3_VIRTUAL_HOSTNAME_REGEX` and test the
truthiness of `match.group(3)` (`None` when unset, falsy when empty). -/
def forwarded_from_virtual_host_addressed_request (headers : List (String × String)) : Bool :=
  match reFullMatch S3_VIRTUAL_HOSTNAME_REGEX
      (dictGetD headers S3_VIRTUAL_HOST_FORWARDED_HEADER "") with
  | none => false
  | some caps =>
    match (caps.find? (fun g => g.1 == 3)).map (fun g => g.2) with
    | none => false
    | some v => !(v == "")

/-! ## Claims -/

/-- C1 counterexample: the `InvalidRequest` error value raised for an
unsupported checksum algorithm does not carry a sender-fault flag set to
`true` — the class declares `sender_fault: bool = False`. -/
theorem invalid_request_claimed_fields_false :
    ¬ (((InvalidRequest "The value specified in the x-amz-trailer header is not supported").sender_fault
          = true)
        ∧ (InvalidRequest "The value specified in the x-amz-trailer header is not supported").status_code
          = 400) := by
  decide

/-- C1 (amended): every `InvalidRequest` error value carries a sender-fault
flag set to `false` and an HTTP-equivalent status code of 400 (and the code
string `"InvalidRequest"`). -/
theorem invalid_request_fields (message : String) :
    (InvalidRequest message).sender_fault = false
      ∧ (InvalidRequest message).status_code = 400
      ∧ (InvalidRequest message).code = "InvalidRequest" :=
  ⟨rfl, rfl, rfl⟩

/-- C2: `verify_checksum` raises an `InvalidRequest`-coded error exactly when
the algorithm is not one of CRC32, CRC32C, SHA1, SHA256 or the declared value
in the request differs from the algorithm's digest of the payload; it returns
without error exactly when the algorithm is supported and the declared value
equals that digest. -/
theorem verify_checksum_characterization (alg : String) (data : List Nat)
    (request : List (String × String)) :
    ((∃ e, verify_checksum alg data request = Except.error e ∧ e.code = "InvalidRequest") ↔
      (alg ∉ (["CRC32", "CRC32C", "SHA1", "SHA256"] : List String)
        ∨ dictGet request ("Checksum" ++ py_upper alg) ≠ spec_digest alg data))
    ∧ ((verify_checksum alg data request = Except.ok ()) ↔
      (alg ∈ (["CRC32", "CRC32C", "SHA1", "SHA256"] : List String)
        ∧ dictGet request ("Checksum" ++ py_upper alg) = spec_digest alg data)) := by
  by_cases h1 : alg = "CRC32"
  · subst h1
    by_cases hd : dictGet request ("Checksum" ++ py_upper "CRC32") = some (checksum_crc32 data) <;>
      simp [verify_checksum, get_object_checksum_for_algorithm, spec_digest, InvalidRequest,
        hd, eq_comm]
  · by_cases h2 : alg = "CRC32C"
    · subst h2
      by_cases hd : dictGet request ("Checksum" ++ py_upper "CRC32C") = some (checksum_crc32c data) <;>
        simp [verify_checksum, get_object_checksum_for_algorithm, spec_digest, InvalidRequest,
          hd, eq_comm]
    · by_cases h3 : alg = "SHA1"
      · subst h3
        by_cases hd : dictGet request ("Checksum" ++ py_upper "SHA1") = some (hash_sha1 data) <;>
          simp [verify_checksum, get_object_checksum_for_algorithm, spec_digest, InvalidRequest,
            hd, eq_comm]
      · by_cases h4 : alg = "SHA256"
        · subst h4
          by_cases hd : dictGet request ("Checksum" ++ py_upper "SHA256") = some (hash_sha256 data) <;>
            simp [verify_checksum, get_object_checksum_for_algorithm, spec_digest, InvalidRequest,
              hd, eq_comm]
        · simp [verify_checksum, get_object_checksum_for_algorithm, spec_digest, InvalidRequest,
            h1, h2, h3, h4]

/-- C2 witness: for `CRC32` with the matching declared value, `verify_checksum`
accepts. -/
theorem verify_checksum_characterization_witness :
    verify_checksum "CRC32" [] [("ChecksumCRC32", checksum_crc32 [])] = Except.ok () :=
  (verify_checksum_characterization "CRC32" [] [("ChecksumCRC32", checksum_crc32 [])]).2.mpr
    ⟨by decide, by rfl⟩

/-- C10: for each supported algorithm, when the request mapping has no entry
under `"Checksum" + upper(algorithm)`, `verify_checksum` raises
`InvalidRequest` — the computed digest, a string, never equals the absent
(`None`) declared value. -/
theorem verify_checksum_missing_header (alg : String) (data : List Nat)
    (request : List (String × String))
    (hsupported : alg ∈ (["CRC32", "CRC32C", "SHA1", "SHA256"] : List String))
    (hmissing : dictGet request ("Checksum" ++ py_upper alg) = none) :
    ∃ e, verify_checksum alg data request = Except.error e ∧ e.code = "InvalidRequest" := by
  simp only [List.mem_cons, List.not_mem_nil, or_false] at hsupported
  rcases hsupported with h | h | h | h <;> subst h <;>
    simp [verify_checksum, get_object_checksum_for_algorithm, InvalidRequest, hmissing]

/-- C10 witness: an empty request mapping has no `ChecksumCRC32` entry, and
verification of a `CRC32` trailer fails with `InvalidRequest`. -/
theorem verify_checksum_missing_header_witness :
    ("CRC32" ∈ (["CRC32", "CRC32C", "SHA1", "SHA256"] : List String))
      ∧ dictGet [] ("Checksum" ++ py_upper "CRC32") = none
      ∧ ∃ e, verify_checksum "CRC32" [] [] = Except.error e ∧ e.code = "InvalidRequest" :=
  ⟨by decide, rfl, verify_checksum_missing_header "CRC32" [] [] (by decide) rfl⟩

/-- C9: on the 64-character all-zero hexadecimal string, `is_valid_canonical_id`
does not return `True`: `int(s, 16)` is `0`, so the Python `and` returns the
falsy int `0` instead. -/
theorem is_valid_canonical_id_all_zeros (s : String) (h : s.data = List.replicate 64 '0') :
    is_valid_canonical_id s ≠ PyRet.bool true := by
  cases s with
  | mk data => subst h; decide

/-- C9 witness: the all-zero 64-character string itself. -/
theorem is_valid_canonical_id_all_zeros_witness :
    (String.mk (List.replicate 64 '0')).data = List.replicate 64 '0'
      ∧ is_valid_canonical_id (String.mk (List.replicate 64 '0')) ≠ PyRet.bool true :=
  ⟨rfl, is_valid_canonical_id_all_zeros (String.mk (List.replicate 64 '0')) rfl⟩

/-- C3: an ARN-shaped key reference whose region differs from the bucket's
region fails immediately with the `KMS.NotFoundException` code carrying the
mismatched region in the message, and issues zero describe-key calls. -/
theorem validate_kms_key_id_cross_region
    (describe_key : String → Except ClientError Unit) (kms_key : String)
    (bucket : FakeBucket) (parsed : ParsedArn)
    (hparse : parse_arn kms_key = some parsed)
    (hregion : parsed.region ≠ bucket.region_name) :
    validate_kms_key_id describe_key kms_key bucket =
      (Except.error (KmsError.common "KMS.NotFoundException" ("Invalid arn " ++ parsed.region)),
        []) := by
  simp [validate_kms_key_id, hparse, hregion]

/-- C3 witness: a `us-east-1` key ARN against a `eu-west-1` bucket. -/
theorem validate_kms_key_id_cross_region_witness :
    parse_arn "arn:aws:kms:us-east-1:111122223333:key/test-key" =
        some ⟨"aws", "kms", "us-east-1", "111122223333", "key/test-key"⟩
      ∧ ("us-east-1" : String) ≠ "eu-west-1"
      ∧ validate_kms_key_id (fun _ => Except.ok ())
          "arn:aws:kms:us-east-1:111122223333:key/test-key" ⟨"eu-west-1", "111122223333"⟩ =
        (Except.error (KmsError.common "KMS.NotFoundException" ("Invalid arn " ++ "us-east-1")),
          []) :=
  ⟨rfl, by decide,
    validate_kms_key_id_cross_region (fun _ => Except.ok ())
      "arn:aws:kms:us-east-1:111122223333:key/test-key" ⟨"eu-west-1", "111122223333"⟩
      ⟨"aws", "kms", "us-east-1", "111122223333", "key/test-key"⟩ rfl (by decide)⟩

/-- Whatever describe-key returns, exactly one call was issued, against the
given `KeyId`. -/
theorem kms_describe_step_calls (describe_key : String → Except ClientError Unit)
    (key_arn : String) : (kms_describe_step describe_key key_arn).2 = [key_arn] := by
  unfold kms_describe_step
  cases describe_key key_arn with
  | ok u => rfl
  | error e => by_cases h : e.code = "NotFoundException" <;> simp [h]

/-- C4: a key reference that does not parse as an ARN leads to exactly one
describe-key call, against the canonical ARN synthesized from the bucket's
account id and region. -/
theorem validate_kms_key_id_bare_key
    (describe_key : String → Except ClientError Unit) (kms_key : String) (bucket : FakeBucket)
    (hparse : parse_arn kms_key = none) :
    (validate_kms_key_id describe_key kms_key bucket).2 =
      [kms_key_arn kms_key bucket.account_id bucket.region_name] := by
  simp [validate_kms_key_id, hparse, kms_describe_step_calls]

/-- C4 witness: a bare key id against a `eu-west-1` bucket. -/
theorem validate_kms_key_id_bare_key_witness :
    parse_arn "test-key-id" = none
      ∧ (validate_kms_key_id (fun _ => Except.ok ()) "test-key-id"
          ⟨"eu-west-1", "123456789012"⟩).2 =
        [kms_key_arn "test-key-id" "123456789012" "eu-west-1"] :=
  ⟨rfl, validate_kms_key_id_bare_key (fun _ => Except.ok ()) "test-key-id"
    ⟨"eu-west-1", "123456789012"⟩ rfl⟩

/-- C5: when the describe-key call fails, a collaborator error coded
`NotFoundException` is remapped to `KMS.NotFoundException` preserving the
collaborator's message, and any other collaborator error is re-raised as the
very same `ClientError` value. -/
theorem validate_kms_key_id_describe_error
    (describe_key : String → Except ClientError Unit) (kms_key arn : String)
    (bucket : FakeBucket) (e : ClientError)
    (htarget : describe_target kms_key bucket = some arn)
    (herr : describe_key arn = Except.error e) :
    (validate_kms_key_id describe_key kms_key bucket).1 =
      Except.error (if e.code = "NotFoundException"
        then KmsError.common "KMS.NotFoundException" e.message
        else KmsError.client e) := by
  unfold describe_target at htarget
  unfold validate_kms_key_id
  cases hp : parse_arn kms_key with
  | some parsed =>
    rw [hp] at htarget
    dsimp only at htarget ⊢
    by_cases hr : parsed.region ≠ bucket.region_name
    · rw [if_pos hr] at htarget; exact absurd htarget (by simp)
    · rw [if_neg hr] at htarget
      obtain rfl : kms_key = arn := by simpa using htarget
      rw [if_neg hr]
      unfold kms_describe_step
      rw [herr]
      by_cases hc : e.code = "NotFoundException" <;> simp [hc]
  | none =>
    rw [hp] at htarget
    dsimp only at htarget ⊢
    obtain rfl : kms_key_arn kms_key bucket.account_id bucket.region_name = arn := by
      simpa using htarget
    unfold kms_describe_step
    rw [herr]
    by_cases hc : e.code = "NotFoundException" <;> simp [hc]

/-- C5 witness: a non-not-found collaborator error propagates as the same
`ClientError` value. -/
theorem validate_kms_key_id_describe_error_witness :
    describe_target "test-key-id" ⟨"eu-west-1", "123456789012"⟩ =
        some (kms_key_arn "test-key-id" "123456789012" "eu-west-1")
      ∧ (fun (_ : String) => Except.error (α := Unit) (ClientError.mk "AccessDeniedException" "denied"))
          (kms_key_arn "test-key-id" "123456789012" "eu-west-1") =
        Except.error (ClientError.mk "AccessDeniedException" "denied")
      ∧ (validate_kms_key_id
          (fun _ => Except.error (ClientError.mk "AccessDeniedException" "denied"))
          "test-key-id" ⟨"eu-west-1", "123456789012"⟩).1 =
        Except.error (if ("AccessDeniedException" : String) = "NotFoundException"
          then KmsError.common "KMS.NotFoundException" "denied"
          else KmsError.client (ClientError.mk "AccessDeniedException" "denied")) :=
  ⟨rfl, rfl,
    validate_kms_key_id_describe_error
      (fun _ => Except.error (ClientError.mk "AccessDeniedException" "denied"))
      "test-key-id" (kms_key_arn "test-key-id" "123456789012" "eu-west-1")
      ⟨"eu-west-1", "123456789012"⟩ (ClientError.mk "AccessDeniedException" "denied") rfl rfl⟩

/-- C6: the forwarded-host side-channel value
`https://my-bucket.s3.us-east-1.amazonaws.com/key` is classified as
virtual-host addressed (a bucket-label capture is present), while the
path-style `https://s3.amazonaws.com/my-bucket/key` is not. -/
theorem forwarded_vhost_classification :
    forwarded_from_virtual_host_addressed_request
        [("x-s3-vhost-forwarded-for", "https://my-bucket.s3.us-east-1.amazonaws.com/key")] = true
      ∧ forwarded_from_virtual_host_addressed_request
        [("x-s3-vhost-forwarded-for", "https://s3.amazonaws.com/my-bucket/key")] = false := by
  constructor <;> decide

/-- One-step unfolding of the matcher at a concatenation. -/
theorem reStep_seq (deeper : RE → List Char → Caps → (List Char → Caps → Option Caps) → Option Caps)
    (a b : RE) (s : List Char) (caps : Caps) (k : List Char → Caps → Option Caps) :
    reStep deeper (RE.seq a b) s caps k =
      reStep deeper a s caps (fun s2 caps2 => reStep deeper b s2 caps2 k) := rfl

/-- One-step unfolding of the matcher at an alternation. -/
theorem reStep_alt (deeper : RE → List Char → Caps → (List Char → Caps → Option Caps) → Option Caps)
    (a b : RE) (s : List Char) (caps : Caps) (k : List Char → Caps → Option Caps) :
    reStep deeper (RE.alt a b) s caps k =
      match reStep deeper a s caps k with
      | some out => some out
      | none => reStep deeper b s caps k := rfl

/-- One-step unfolding of the matcher at a positive lookahead. -/
theorem reStep_pla (deeper : RE → List Char → Caps → (List Char → Caps → Option Caps) → Option Caps)
    (a : RE) (s : List Char) (caps : Caps) (k : List Char → Caps → Option Caps) :
    reStep deeper (RE.pla a) s caps k =
      match reStep deeper a s caps (fun _ _ => some []) with
      | some _ => k s caps
      | none => none := rfl

/-- One-step unfolding of the matcher at the `$` anchor: it holds at the end
of the subject or just before a trailing newline. -/
theorem reStep_eos (deeper : RE → List Char → Caps → (List Char → Caps → Option Caps) → Option Caps)
    (s : List Char) (caps : Caps) (k : List Char → Caps → Option Caps) :
    reStep deeper RE.eos s caps k =
      if s.isEmpty || s == ['\n'] then k s caps else none := rfl

/-- A successful `reDot` step consumed exactly one (non-newline) character. -/
theorem reStep_dot_some
    {deeper : RE → List Char → Caps → (List Char → Caps → Option Caps) → Option Caps}
    {s : List Char} {caps : Caps} {k : List Char → Caps → Option Caps} {out : Caps}
    (h : reStep deeper reDot s caps k = some out) :
    ∃ c rest, s = c :: rest ∧ k rest caps = some out := by
  cases s with
  | nil => exact absurd h (by simp [reStep, reDot])
  | cons c rest =>
    refine ⟨c, rest, rfl, ?_⟩
    simp only [reStep, reDot] at h
    split at h
    · exact h
    · exact absurd h (by simp)

/-- A successful match of at most `m` dots invoked the continuation on a
suffix obtained by dropping at most `m` characters. -/
theorem reStep_repLe_dot {m : Nat}
    {deeper : RE → List Char → Caps → (List Char → Caps → Option Caps) → Option Caps}
    {s : List Char} {caps : Caps} {k : List Char → Caps → Option Caps} {out : Caps}
    (h : reStep deeper (reRepLe m reDot) s caps k = some out) :
    ∃ j caps2, j ≤ m ∧ k (List.drop j s) caps2 = some out := by
  induction m generalizing s caps with
  | zero => exact ⟨0, caps, Nat.le_refl 0, h⟩
  | succ n ih =>
    simp only [reRepLe] at h
    rw [reStep_alt, reStep_seq] at h
    cases hfst : reStep deeper reDot s caps
        (fun s2 caps2 => reStep deeper (reRepLe n reDot) s2 caps2 k) with
    | none =>
      rw [hfst] at h
      exact ⟨0, caps, Nat.zero_le _, h⟩
    | some out2 =>
      rw [hfst] at h
      obtain rfl : out2 = out := by simpa using h
      obtain ⟨c, rest, rfl, hcont⟩ := reStep_dot_some hfst
      obtain ⟨j, caps2, hj, hk⟩ := ih hcont
      exact ⟨j + 1, caps2, Nat.succ_le_succ hj, hk⟩

/-- A successful match of the `reLenCheck` lookahead body pins the subject
length to the 3..64 range (64 is only reachable with a trailing newline,
which `$` skips). -/
theorem reStep_lenCheck_bounds
    {deeper : RE → List Char → Caps → (List Char → Caps → Option Caps) → Option Caps}
    {s : List Char} {caps : Caps} {k : List Char → Caps → Option Caps} {out : Caps}
    (h : reStep deeper reLenCheck s caps k = some out) :
    3 ≤ s.length ∧ s.length ≤ 64 := by
  rw [reLenCheck, reStep_seq] at h
  obtain ⟨c1, s1, rfl, h1⟩ := reStep_dot_some h
  try dsimp only at h1
  rw [reStep_seq] at h1
  obtain ⟨c2, s2, rfl, h2⟩ := reStep_dot_some h1
  try dsimp only at h2
  rw [reStep_seq] at h2
  obtain ⟨c3, s3, rfl, h3⟩ := reStep_dot_some h2
  try dsimp only at h3
  rw [reStep_seq] at h3
  obtain ⟨j, caps2, hj, hk⟩ := reStep_repLe_dot h3
  try dsimp only at hk
  rw [reStep_eos] at hk
  split at hk
  · next hcond =>
    simp only [Bool.or_eq_true] at hcond
    have hdrop : List.drop j s3 = [] ∨ List.drop j s3 = ['\n'] := by
      rcases hcond with h0 | h1
      · left
        cases hd : List.drop j s3 with
        | nil => rfl
        | cons x xs => rw [hd] at h0; exact absurd h0 (by simp)
      · right; exact eq_of_beq h1
    have hlen : s3.length ≤ j + 1 := by
      have hld := List.length_drop j s3
      rcases hdrop with hd | hd <;> rw [hd] at hld <;> simp at hld <;> omega
    simp only [List.length_cons]
    omega
  · next hcond => exact absurd hk (by simp)

set_option maxRecDepth 16384 in
/-- C7 counterexample: the 64-character name of 63 `a`s followed by a newline
is accepted — Python's `$` matches just before the trailing newline, so
every lookahead and the label body of `BUCKET_NAME_REGEX` succeed on the 63
`a`s — refuting the claimed rejection of all names longer than 63. -/
theorem is_bucket_name_valid_newline_accepted :
    63 < (String.mk (List.replicate 63 'a' ++ ['\n'])).length
      ∧ is_bucket_name_valid (String.mk (List.replicate 63 'a' ++ ['\n'])) = true := by
  constructor <;> decide

/-- C7 (amended): every name of length below 3 or above 64 is rejected by
`is_bucket_name_valid` — the leading length lookahead of
`BUCKET_NAME_REGEX` cannot match; 64 rather than 63 is the true upper bound
because `$` accepts one trailing newline after the up-to-63 matched
characters. -/
theorem is_bucket_name_valid_length (name : String)
    (h : name.length < 3 ∨ 64 < name.length) :
    is_bucket_name_valid name = false := by
  unfold is_bucket_name_valid reFullMatch
  simp only [reMF]
  rw [BUCKET_NAME_REGEX, reStep_seq, reStep_pla]
  cases hlen : reStep (reMF name.length) reLenCheck name.data [] (fun _ _ => some []) with
  | none => rfl
  | some val =>
    exfalso
    have hb := reStep_lenCheck_bounds hlen
    have hl : name.length = name.data.length := rfl
    rcases h with h | h <;> omega

/-- C7 witness: the two-character name `ab`. -/
theorem is_bucket_name_valid_length_witness :
    (("ab" : String).length < 3 ∨ 64 < ("ab" : String).length)
      ∧ is_bucket_name_valid "ab" = false :=
  ⟨Or.inl (by decide), is_bucket_name_valid_length "ab" (Or.inl (by decide))⟩

/-- C8: `192.168.1.1` is rejected by the dotted-quad all-numeric shape check;
`my-bucket.example` is a valid bucket name. -/
theorem bucket_name_examples :
    is_bucket_name_valid "192.168.1.1" = false
      ∧ is_bucket_name_valid "my-bucket.example" = true := by
  constructor <;> decide
